import Mathlib

/-!
Verification of `custom_components/smartthings/number.py`: the SmartThings
number platform (capability registry, entity factory `async_setup_entry`,
and the `SmartThingsNumber` adapter entity).

Modelling conventions:
* Python `dict` values are association lists (`List (key × value)`); direct
  indexing `d[k]`, which raises `KeyError` on a missing key, is modelled as
  `Option`-valued lookup, with `none` standing for the raised error.
* Python `float` values handled by the module are modelled as `Rat`;
  `int(value)` is truncation toward zero.
* The asynchronous write path is modelled as a pure function that records
  the remote command call and the host-framework state-write signal as an
  event trace, parameterised by the (externally owned) command dispatcher's
  outcome (`Except ε Unit`): an `error` models the remote call raising.
-/

/-- Modelled from the spec: the capability identifier constant exported by the
repository's `capability` module (not under `src/`); the registry key for the
cooling-setpoint capability. Its exact string value decides no claim. -/
def Capability.thermostat_cooling_setpoint : String := "thermostatCoolingSetpoint"

/-- Modelled from the spec: the attribute-key constant exported by the
repository's `capability` module (not under `src/`). -/
def Attribute.cooling_setpoint : String := "coolingSetpoint"

/-- Modelled from the spec: the host framework's Celsius unit constant
(`UnitOfTemperature.CELSIUS`). -/
def UnitOfTemperature.CELSIUS : String := "°C"

/-- Modelled from the spec: the host framework's Fahrenheit unit constant
(`UnitOfTemperature.FAHRENHEIT`). -/
def UnitOfTemperature.FAHRENHEIT : String := "°F"

/-- Modelled from the spec: the host framework's automatic number-display mode
(`NumberMode.AUTO`). -/
def NumberMode.AUTO : String := "auto"

/-- `UNITS`: translation table from device-reported unit strings to the host
framework's unit constants. -/
def UNITS : List (String × String) :=
  [("C", UnitOfTemperature.CELSIUS), ("F", UnitOfTemperature.FAHRENHEIT)]

/-- The `Map` namedtuple: one descriptor record of the capability registry.
(The `attribute` field is named `attribute_key` here because `attribute` is a
Lean keyword.) -/
structure Map where
  attribute_key : String
  command : String
  name : String
  unit_of_measurement : Option String
  icon : String
  min_value : Int
  max_value : Int
  step : Int
  mode : String
deriving DecidableEq, Repr

/-- The single descriptor record of the registry. -/
def coolingSetpointMap : Map :=
  { attribute_key := Attribute.cooling_setpoint,
    command := "set_cooling_setpoint",
    name := "Cooling Setpoint",
    unit_of_measurement := none,
    icon := "mdi:thermometer",
    min_value := -22,
    max_value := 500,
    step := 1,
    mode := NumberMode.AUTO }

/-- `CAPABILITY_TO_NUMBER`: the capability registry, a mapping from capability
identifier to a list of descriptor records. -/
def CAPABILITY_TO_NUMBER : List (String × List Map) :=
  [(Capability.thermostat_cooling_setpoint, [coolingSetpointMap])]

/-- Python `CAPABILITY_TO_NUMBER[capability]`: direct dict indexing; `none`
models the `KeyError` raised on an unknown capability. -/
def registryLookup (capability : String) : Option (List Map) :=
  List.lookup capability CAPABILITY_TO_NUMBER

/-- One attribute entry of the externally owned device status cache:
a last-known value and an optional unit string. -/
structure AttributeStatus where
  value : Rat
  unit : Option String
deriving DecidableEq, Repr

/-- The status of one non-main component: its attribute dictionary. -/
structure ComponentStatus where
  attributes : List (String × AttributeStatus)
deriving DecidableEq, Repr

/-- `device.status`: the main component's attribute dictionary plus the
per-component dictionaries for the other components. -/
structure DeviceStatus where
  attributes : List (String × AttributeStatus)
  components : List (String × ComponentStatus)
deriving DecidableEq, Repr

/-- The external `DeviceEntity`: stable identifier, display label, the
components mapping (component id → advertised capability identifiers), and
the status cache snapshot. -/
structure Device where
  device_id : String
  label : String
  components : List (String × List String)
  status : DeviceStatus
deriving DecidableEq, Repr

/-- The `SmartThingsNumber` adapter entity: the fields assigned in
`__init__`, in source order. -/
structure SmartThingsNumber where
  _device : Device
  _component : String
  _attribute : String
  _command : String
  _name : String
  _attr_native_unit_of_measurement : Option String
  _icon : String
  _attr_native_min_value : Int
  _attr_native_max_value : Int
  _attr_native_step : Int
  _attr_mode : String
deriving DecidableEq, Repr

/-- The status-cache entry for the entity's bound (component, attribute):
`self._device.status.attributes[self._attribute]` when the component is
"main", else
`self._device.status.components[self._component].attributes[self._attribute]`.
`none` models the `KeyError` raised when the entry is absent. This branch is
written out identically in `native_value`, `native_min_value`,
`native_max_value` and `native_unit_of_measurement`. -/
def statusEntry (e : SmartThingsNumber) : Option AttributeStatus :=
  if e._component = "main" then
    List.lookup e._attribute e._device.status.attributes
  else
    (List.lookup e._component e._device.status.components).bind
      (fun comp => List.lookup e._attribute comp.attributes)

/-- The `unit` local variable computed at the top of `native_min_value`,
`native_max_value` and `native_unit_of_measurement`: the bound attribute's
unit from the status cache. Outer `none` = cache entry absent (`KeyError`). -/
def unitOf (e : SmartThingsNumber) : Option (Option String) :=
  (statusEntry e).map AttributeStatus.unit

/-- Property `native_value`: the cached value for the bound
(component, attribute). -/
def SmartThingsNumber.native_value (e : SmartThingsNumber) : Option Rat :=
  (statusEntry e).map AttributeStatus.value

/-- Property `name`: device label, then the component unless it is "main",
then the descriptor display name. -/
def SmartThingsNumber.name (e : SmartThingsNumber) : String :=
  if e._component = "main" then
    e._device.label ++ " " ++ e._name
  else
    e._device.label ++ " " ++ e._component ++ " " ++ e._name

/-- Property `unique_id`: device id, then the component unless it is "main",
then the attribute key, dot-separated. -/
def SmartThingsNumber.unique_id (e : SmartThingsNumber) : String :=
  if e._component = "main" then
    e._device.device_id ++ "." ++ e._attribute
  else
    e._device.device_id ++ "." ++ e._component ++ "." ++ e._attribute

/-- Property `icon`. -/
def SmartThingsNumber.icon (e : SmartThingsNumber) : String :=
  e._icon

/-- Property `native_min_value`: reads the unit from the status cache, then
returns the hardcoded cooler/freezer bound for units "F"/"C", otherwise the
configured `_attr_native_min_value`. `none` models the `KeyError` from the
unit read. -/
def SmartThingsNumber.native_min_value (e : SmartThingsNumber) : Option Int :=
  (unitOf e).map fun unit =>
    if e._component = "cooler" then
      if unit = some "F" then 34
      else if unit = some "C" then 1
      else e._attr_native_min_value
    else if e._component = "freezer" then
      if unit = some "F" then -8
      else if unit = some "C" then -22
      else e._attr_native_min_value
    else e._attr_native_min_value

/-- Property `native_max_value`: same shape as `native_min_value` with the
maximum table. -/
def SmartThingsNumber.native_max_value (e : SmartThingsNumber) : Option Int :=
  (unitOf e).map fun unit =>
    if e._component = "cooler" then
      if unit = some "F" then 44
      else if unit = some "C" then 6
      else e._attr_native_max_value
    else if e._component = "freezer" then
      if unit = some "F" then 5
      else if unit = some "C" then -15
      else e._attr_native_max_value
    else e._attr_native_max_value

/-- Property `native_step`. -/
def SmartThingsNumber.native_step (e : SmartThingsNumber) : Int :=
  e._attr_native_step

/-- Property `mode`. -/
def SmartThingsNumber.mode (e : SmartThingsNumber) : String :=
  e._attr_mode

/-- `UNITS.get(unit, unit)`: dict `get` with the key itself as default. -/
def UNITS_get (unit : String) : String :=
  (List.lookup unit UNITS).getD unit

/-- Property `native_unit_of_measurement`: reads the unit from the status
cache; a truthy unit (non-`None`, non-empty) is translated through `UNITS`
(falling back to itself), a falsy one falls back to the configured
`_attr_native_unit_of_measurement`. Outer `none` models the `KeyError` from
the status read. -/
def SmartThingsNumber.native_unit_of_measurement (e : SmartThingsNumber) :
    Option (Option String) :=
  (unitOf e).map fun unit =>
    match unit with
    | some u =>
        if u = "" then e._attr_native_unit_of_measurement
        else some (UNITS_get u)
    | none => e._attr_native_unit_of_measurement

/-- One remote command call as dispatched through `DeviceEntity.command`:
`(component_id, capability, command, args)`. -/
structure CommandCall where
  component : String
  capability : String
  command : String
  args : List Int
deriving DecidableEq, Repr

/-- Python `int(value)` on the values this module handles: truncation toward
zero of a rational. -/
def int_trunc (v : Rat) : Int :=
  v.num.tdiv (v.den : Int)

/-- Observable effects of the write path: the remote command call and the
`async_write_ha_state` signal to the host framework. -/
inductive Event where
  | command (call : CommandCall)
  | write_ha_state
deriving DecidableEq, Repr

/-- The single command call built inside `async_set_native_value`: the
entity's bound component with the hardcoded capability/command literals and
the truncated value as the only argument. -/
def setpointCall (e : SmartThingsNumber) (value : Rat) : CommandCall :=
  { component := e._component,
    capability := "thermostatCoolingSetpoint",
    command := "setCoolingSetpoint",
    args := [int_trunc value] }

/-- `async_set_native_value`: awaits `self._device.command(...)` with the
hardcoded capability/command pair, then calls `async_write_ha_state`. The
externally owned dispatcher is `cmd`; an `error` outcome models the remote
call raising, which aborts the function before the state-write signal and
propagates the error unchanged. Returns the event trace and the outcome. -/
def async_set_native_value {ε : Type} (e : SmartThingsNumber)
    (cmd : CommandCall → Except ε Unit) (value : Rat) :
    List Event × Except ε Unit :=
  match cmd (setpointCall e value) with
  | Except.error err => ([Event.command (setpointCall e value)], Except.error err)
  | Except.ok _ =>
      ([Event.command (setpointCall e value), Event.write_ha_state], Except.ok ())

/-- The remote command calls recorded in an event trace. -/
def commandsOf (events : List Event) : List CommandCall :=
  events.filterMap fun ev =>
    match ev with
    | Event.command c => some c
    | Event.write_ha_state => none

/-- Constructing one `SmartThingsNumber` from a device, a component and one
descriptor record, as in both entity-building list comprehensions of
`async_setup_entry`. -/
def mkNumber (device : Device) (component : String) (m : Map) : SmartThingsNumber :=
  { _device := device,
    _component := component,
    _attribute := m.attribute_key,
    _command := m.command,
    _name := m.name,
    _attr_native_unit_of_measurement := m.unit_of_measurement,
    _icon := m.icon,
    _attr_native_min_value := m.min_value,
    _attr_native_max_value := m.max_value,
    _attr_native_step := m.step,
    _attr_mode := m.mode }

/-- First loop of `async_setup_entry`: for each assigned capability, index
the registry (raising, i.e. `none`, on an unknown capability) and extend the
list with one entity per descriptor, bound to component "main". -/
def mainLoop (device : Device) : List String → Option (List SmartThingsNumber)
  | [] => some []
  | capability :: rest =>
    match registryLookup capability with
    | none => none
    | some maps =>
        (mainLoop device rest).map fun tail =>
          maps.map (mkNumber device "main") ++ tail

/-- Inner second loop of `async_setup_entry`: for each capability a component
advertises, skip it (`continue`) when it is not in the assigned list,
otherwise index the registry and extend with entities bound to that
component. -/
def componentCapsLoop (device : Device) (assigned : List String)
    (component : String) : List String → Option (List SmartThingsNumber)
  | [] => some []
  | capability :: rest =>
    if capability ∈ assigned then
      match registryLookup capability with
      | none => none
      | some maps =>
          (componentCapsLoop device assigned component rest).map fun tail =>
            maps.map (mkNumber device component) ++ tail
    else componentCapsLoop device assigned component rest

/-- Outer second loop of `async_setup_entry`: over every declared component
of the device (the source does not exclude "main" here). -/
def componentsLoop (device : Device) (assigned : List String) :
    List (String × List String) → Option (List SmartThingsNumber)
  | [] => some []
  | (component, caps) :: rest =>
    (componentCapsLoop device assigned component caps).bind fun here =>
      (componentsLoop device assigned rest).map fun tail => here ++ tail

/-- The broker: the device list and the per-device, per-platform
assigned-capabilities accessor `get_assigned(device_id, platform)`. -/
structure Broker where
  devices : List Device
  get_assigned : String → String → List String

/-- Both loops of `async_setup_entry` for one device; the source calls
`broker.get_assigned(device.device_id, "number")` for each loop. -/
def setupDevice (broker : Broker) (device : Device) :
    Option (List SmartThingsNumber) :=
  (mainLoop device (broker.get_assigned device.device_id "number")).bind
    fun fromMain =>
      (componentsLoop device (broker.get_assigned device.device_id "number")
          device.components).map
        fun fromComponents => fromMain ++ fromComponents

/-- The device loop of `async_setup_entry`, accumulating `numbers`. -/
def devicesLoop (broker : Broker) : List Device → Option (List SmartThingsNumber)
  | [] => some []
  | device :: rest =>
    (setupDevice broker device).bind fun here =>
      (devicesLoop broker rest).map fun tail => here ++ tail

/-- `async_setup_entry`: builds the full `numbers` list handed to
`async_add_entities`; `none` models an unhandled `KeyError` aborting setup. -/
def async_setup_entry (broker : Broker) : Option (List SmartThingsNumber) :=
  devicesLoop broker broker.devices

/-- `get_capabilities`: the registry keys, in registry order, that occur in
the input; the declared return type admits `None` but the body always
returns a list. -/
def get_capabilities (capabilities : List String) : Option (List String) :=
  some ((CAPABILITY_TO_NUMBER.map Prod.fst).filter
    (fun capability => capabilities.contains capability))

/-- Example fixture: a device holding the cooling-setpoint attribute with the
given unit under the given component ("main" uses the top-level attribute
dictionary, any other name a component dictionary). -/
def unitDevice (component : String) (unit : Option String) : Device :=
  { device_id := "d0",
    label := "Fridge",
    components := [(component, [Capability.thermostat_cooling_setpoint])],
    status :=
      if component = "main" then
        { attributes := [(Attribute.cooling_setpoint, { value := 3, unit := unit })],
          components := [] }
      else
        { attributes := [],
          components :=
            [(component,
              { attributes :=
                  [(Attribute.cooling_setpoint, { value := 3, unit := unit })] })] } }

/-- Example fixture: the adapter entity built from `unitDevice` and the
registry's descriptor, bound to the given component. -/
def exEntity (component : String) (unit : Option String) : SmartThingsNumber :=
  mkNumber (unitDevice component unit) component coolingSetpointMap

/-- Example fixture: a "main"-bound entity whose device status cache has no
entry at all for the bound attribute. -/
def entNoStatus : SmartThingsNumber :=
  mkNumber
    { device_id := "d0", label := "Fridge", components := [],
      status := { attributes := [], components := [] } }
    "main" coolingSetpointMap

/-- Example fixture for the factory: a device whose components mapping lists
"room2" advertising the cooling-setpoint capability. -/
def devC2 : Device :=
  { device_id := "d1",
    label := "Dev",
    components := [("room2", [Capability.thermostat_cooling_setpoint])],
    status := { attributes := [], components := [] } }

/-- Example fixture: a broker whose assigned-capabilities result for `devC2`
on the number platform contains the cooling-setpoint capability. -/
def brokerC2 : Broker :=
  { devices := [devC2],
    get_assigned := fun _ _ => [Capability.thermostat_cooling_setpoint] }

/-- Example fixture: a device with no components. -/
def devBad : Device :=
  { device_id := "bad1", label := "Bad", components := [],
    status := { attributes := [], components := [] } }

/-- Example fixture: a broker whose assigned-capabilities result names a
capability absent from the registry. -/
def brokerBad : Broker :=
  { devices := [devBad],
    get_assigned := fun _ _ => ["unknownCap"] }

/-- Claim C1: for every value, `async_set_native_value` issues exactly one
remote command call, addressed to the entity's bound component, with
capability "thermostatCoolingSetpoint", command "setCoolingSetpoint" and
argument list `[int_trunc value]` (truncation toward zero), regardless of the
`_command` and `_attribute` the entity was constructed with and of the
dispatcher's outcome. -/
theorem C1_set_value_single_hardcoded_command {ε : Type}
    (e : SmartThingsNumber) (cmd : CommandCall → Except ε Unit) (v : Rat) :
    commandsOf (async_set_native_value e cmd v).1 =
      [{ component := e._component,
         capability := "thermostatCoolingSetpoint",
         command := "setCoolingSetpoint",
         args := [int_trunc v] }] := by
  unfold async_set_native_value
  cases cmd (setpointCall e v) <;> simp [commandsOf, setpointCall]

/-- Witness for C1: a "main"-bound entity; `set_value(21.7)` (21.7 = 217/10)
issues the single call with argument list `[21]`. -/
theorem C1_witness :
    commandsOf
        (async_set_native_value (exEntity "main" (some "C"))
          (fun _ => (Except.ok () : Except Unit Unit)) (mkRat 217 10)).1 =
      [{ component := "main",
         capability := "thermostatCoolingSetpoint",
         command := "setCoolingSetpoint",
         args := [21] }] := by
  have h := C1_set_value_single_hardcoded_command (exEntity "main" (some "C"))
    (fun _ => (Except.ok () : Except Unit Unit)) (mkRat 217 10)
  exact h.trans (by decide)

/-- Counterexample to claim C2: with the capability in the assigned list and
"room2" advertising it, the factory creates a second adapter bound to
component "room2" (created components are exactly ["main", "room2"]). -/
theorem C2_counterexample :
    (async_setup_entry brokerC2).map (List.map SmartThingsNumber._component) =
      some ["main", "room2"] := by
  decide

/-- Claim C2 as amended: for a device whose assigned-capabilities result
contains the cooling-setpoint capability and whose components mapping lists a
component "room2" advertising the same capability, the factory DOES create a
second adapter entity bound to "room2": the skip check is keyed only by the
capability identifier, which is present in the assigned list, so "room2" is
not skipped. -/
theorem C2_amended_room2_entity_created (id lbl : String) (st : DeviceStatus) :
    ∃ numbers,
      async_setup_entry
        { devices :=
            [{ device_id := id, label := lbl,
               components := [("room2", [Capability.thermostat_cooling_setpoint])],
               status := st }],
          get_assigned := fun _ _ => [Capability.thermostat_cooling_setpoint] } =
        some numbers ∧
      numbers.map SmartThingsNumber._component = ["main", "room2"] :=
  ⟨_, rfl, rfl⟩

/-- Claim C3: for an entity bound to component "cooler" or "freezer",
`native_min_value` / `native_max_value` return the fixed table values keyed
by the attribute's current unit from the status cache, regardless of the
descriptor's configured bounds: cooler/F gives 34 and 44, cooler/C gives 1
and 6, freezer/F gives -8 and 5, freezer/C gives -22 and -15. -/
theorem C3_cooler_freezer_bounds_table (e : SmartThingsNumber) :
    (e._component = "cooler" → unitOf e = some (some "F") →
      e.native_min_value = some 34 ∧ e.native_max_value = some 44) ∧
    (e._component = "cooler" → unitOf e = some (some "C") →
      e.native_min_value = some 1 ∧ e.native_max_value = some 6) ∧
    (e._component = "freezer" → unitOf e = some (some "F") →
      e.native_min_value = some (-8) ∧ e.native_max_value = some 5) ∧
    (e._component = "freezer" → unitOf e = some (some "C") →
      e.native_min_value = some (-22) ∧ e.native_max_value = some (-15)) := by
  refine ⟨?_, ?_, ?_, ?_⟩ <;> intro hc hu <;>
    simp [SmartThingsNumber.native_min_value, SmartThingsNumber.native_max_value,
      hc, hu]

/-- Witness for C3: concrete cooler/freezer entities with status units "F"
and "C" hit all four table rows. -/
theorem C3_witness :
    ((exEntity "cooler" (some "F")).native_min_value = some 34 ∧
      (exEntity "cooler" (some "F")).native_max_value = some 44) ∧
    ((exEntity "cooler" (some "C")).native_min_value = some 1 ∧
      (exEntity "cooler" (some "C")).native_max_value = some 6) ∧
    ((exEntity "freezer" (some "F")).native_min_value = some (-8) ∧
      (exEntity "freezer" (some "F")).native_max_value = some 5) ∧
    ((exEntity "freezer" (some "C")).native_min_value = some (-22) ∧
      (exEntity "freezer" (some "C")).native_max_value = some (-15)) :=
  ⟨(C3_cooler_freezer_bounds_table (exEntity "cooler" (some "F"))).1 rfl rfl,
   (C3_cooler_freezer_bounds_table (exEntity "cooler" (some "C"))).2.1 rfl rfl,
   (C3_cooler_freezer_bounds_table (exEntity "freezer" (some "F"))).2.2.1 rfl rfl,
   (C3_cooler_freezer_bounds_table (exEntity "freezer" (some "C"))).2.2.2 rfl rfl⟩

/-- Claim C4: when the bound component is neither "cooler" nor "freezer", or
it is one of the two but the status-cache unit is neither "F" nor "C", the
bound getters return exactly the descriptor's configured bounds (provided the
status-cache entry for the bound attribute exists, so that the unit read at
the top of both getters succeeds). -/
theorem C4_configured_bounds_fallback (e : SmartThingsNumber) (u : Option String) :
    (e._component ≠ "cooler" → e._component ≠ "freezer" → unitOf e = some u →
      e.native_min_value = some e._attr_native_min_value ∧
      e.native_max_value = some e._attr_native_max_value) ∧
    ((e._component = "cooler" ∨ e._component = "freezer") →
      unitOf e = some u → u ≠ some "F" → u ≠ some "C" →
      e.native_min_value = some e._attr_native_min_value ∧
      e.native_max_value = some e._attr_native_max_value) := by
  constructor
  · intro h1 h2 hu
    simp [SmartThingsNumber.native_min_value, SmartThingsNumber.native_max_value,
      hu, h1, h2]
  · rintro (hc | hc) hu hF hC <;>
      simp [SmartThingsNumber.native_min_value, SmartThingsNumber.native_max_value,
        hc, hu, hF, hC]

/-- Witness for C4: a "main"-bound entity with unit "C", and a cooler-bound
entity with unit "K", both return the configured bounds (-22 / 500). -/
theorem C4_witness :
    ((exEntity "main" (some "C")).native_min_value = some (-22) ∧
      (exEntity "main" (some "C")).native_max_value = some 500) ∧
    ((exEntity "cooler" (some "K")).native_min_value = some (-22) ∧
      (exEntity "cooler" (some "K")).native_max_value = some 500) :=
  ⟨(C4_configured_bounds_fallback (exEntity "main" (some "C")) (some "C")).1
      (by decide) (by decide) rfl,
   (C4_configured_bounds_fallback (exEntity "cooler" (some "K")) (some "K")).2
      (Or.inl rfl) rfl (by decide) (by decide)⟩

/-- Helper: the first factory loop fails (models the raised `KeyError`) as
soon as the assigned list contains a capability absent from the registry. -/
theorem mainLoop_eq_none_of_mem (device : Device) (capability : String)
    (caps : List String) (hmem : capability ∈ caps)
    (hnone : registryLookup capability = none) :
    mainLoop device caps = none := by
  induction caps with
  | nil => cases hmem
  | cons c rest ih =>
      rcases List.mem_cons.mp hmem with h | h
      · subst h
        simp [mainLoop, hnone]
      · cases hc : registryLookup c with
        | none => simp [mainLoop, hc]
        | some maps => simp [mainLoop, hc, ih h]

/-- Helper: a failing per-device setup fails the whole device loop. -/
theorem devicesLoop_eq_none_of_mem (broker : Broker) (device : Device)
    (devices : List Device) (hmem : device ∈ devices)
    (hnone : setupDevice broker device = none) :
    devicesLoop broker devices = none := by
  induction devices with
  | nil => cases hmem
  | cons d rest ih =>
      rcases List.mem_cons.mp hmem with h | h
      · subst h
        simp [devicesLoop, hnone]
      · cases hd : setupDevice broker d with
        | none => simp [devicesLoop, hd]
        | some here => simp [devicesLoop, hd, ih h]

/-- Claim C5: every registry key maps to a non-empty descriptor list; any
other identifier makes the lookup fail; and since the factory indexes the
mapping directly, an unknown capability in a device's assigned list makes the
whole `async_setup_entry` abort (`none`) instead of being skipped. -/
theorem C5_registry_lookup_total_on_keys (capability : String) :
    (∀ maps, registryLookup capability = some maps → maps ≠ []) ∧
    (capability ∉ CAPABILITY_TO_NUMBER.map Prod.fst →
      registryLookup capability = none) ∧
    (∀ (broker : Broker) (device : Device), device ∈ broker.devices →
      capability ∈ broker.get_assigned device.device_id "number" →
      registryLookup capability = none →
      async_setup_entry broker = none) := by
  refine ⟨?_, ?_, ?_⟩
  · intro maps h
    by_cases hc : capability = Capability.thermostat_cooling_setpoint
    · subst hc
      simp [registryLookup, CAPABILITY_TO_NUMBER, List.lookup] at h
      simp [← h]
    · have hb : (capability == Capability.thermostat_cooling_setpoint) = false := by
        rw [beq_eq_false_iff_ne]
        exact hc
      simp [registryLookup, CAPABILITY_TO_NUMBER, List.lookup, hb] at h
  · intro hmem
    have hc : capability ≠ Capability.thermostat_cooling_setpoint := by
      simpa [CAPABILITY_TO_NUMBER] using hmem
    have hb : (capability == Capability.thermostat_cooling_setpoint) = false := by
      rw [beq_eq_false_iff_ne]
      exact hc
    simp [registryLookup, CAPABILITY_TO_NUMBER, List.lookup, hb]
  · intro broker device hdev hcap hnone
    have hmain : mainLoop device (broker.get_assigned device.device_id "number") = none :=
      mainLoop_eq_none_of_mem device capability _ hcap hnone
    have hsetup : setupDevice broker device = none := by
      simp [setupDevice, hmain]
    have := devicesLoop_eq_none_of_mem broker device broker.devices hdev hsetup
    simpa [async_setup_entry] using this

/-- Witness for C5: the registry key yields the non-empty descriptor list,
the identifier "unknownCap" fails the lookup, and a broker assigning
"unknownCap" aborts the whole setup. -/
theorem C5_witness :
    registryLookup Capability.thermostat_cooling_setpoint = some [coolingSetpointMap] ∧
    registryLookup "unknownCap" = none ∧
    async_setup_entry brokerBad = none :=
  ⟨rfl,
   (C5_registry_lookup_total_on_keys "unknownCap").2.1 (by decide),
   (C5_registry_lookup_total_on_keys "unknownCap").2.2 brokerBad devBad
     (by decide) (by decide)
     ((C5_registry_lookup_total_on_keys "unknownCap").2.1 (by decide))⟩

/-- Claim C6: `native_unit_of_measurement` translates the device-reported
unit: status unit "C" yields the Celsius constant, "F" the Fahrenheit
constant, any other non-empty string passes through unchanged, and an absent
unit yields the descriptor's configured unit (which may itself be absent). -/
theorem C6_unit_translation (e : SmartThingsNumber) (u : Option String)
    (hu : unitOf e = some u) :
    (u = some "C" →
      e.native_unit_of_measurement = some (some UnitOfTemperature.CELSIUS)) ∧
    (u = some "F" →
      e.native_unit_of_measurement = some (some UnitOfTemperature.FAHRENHEIT)) ∧
    (∀ s, u = some s → s ≠ "C" → s ≠ "F" → s ≠ "" →
      e.native_unit_of_measurement = some (some s)) ∧
    (u = none →
      e.native_unit_of_measurement = some e._attr_native_unit_of_measurement) := by
  refine ⟨?_, ?_, ?_, ?_⟩
  · intro h
    subst h
    simp [SmartThingsNumber.native_unit_of_measurement, hu, UNITS_get, UNITS,
      List.lookup]
  · intro h
    subst h
    simp [SmartThingsNumber.native_unit_of_measurement, hu, UNITS_get, UNITS,
      List.lookup]
  · intro s h hC hF hempty
    subst h
    have hbC : (s == "C") = false := by
      rw [beq_eq_false_iff_ne]
      exact hC
    have hbF : (s == "F") = false := by
      rw [beq_eq_false_iff_ne]
      exact hF
    simp [SmartThingsNumber.native_unit_of_measurement, hu, UNITS_get, UNITS,
      List.lookup, hbC, hbF, hempty]
  · intro h
    subst h
    simp [SmartThingsNumber.native_unit_of_measurement, hu]

/-- Witness for C6: concrete "main"-bound entities with status units "C",
"F", "K" and no unit hit all four translation cases (the descriptor's
configured unit is `none`). -/
theorem C6_witness :
    (exEntity "main" (some "C")).native_unit_of_measurement =
        some (some UnitOfTemperature.CELSIUS) ∧
    (exEntity "main" (some "F")).native_unit_of_measurement =
        some (some UnitOfTemperature.FAHRENHEIT) ∧
    (exEntity "main" (some "K")).native_unit_of_measurement = some (some "K") ∧
    (exEntity "main" none).native_unit_of_measurement = some none :=
  ⟨(C6_unit_translation (exEntity "main" (some "C")) (some "C") rfl).1 rfl,
   (C6_unit_translation (exEntity "main" (some "F")) (some "F") rfl).2.1 rfl,
   (C6_unit_translation (exEntity "main" (some "K")) (some "K") rfl).2.2.1 "K"
     rfl (by decide) (by decide) (by decide),
   ((C6_unit_translation (exEntity "main" none) none rfl).2.2.2 rfl).trans
     (by decide)⟩

/-- Claim C7: the unique identity is `device_id.attribute` when the bound
component is "main" and `device_id.component.attribute` otherwise; the
display name is the device label, the component prefix (omitted exactly when
the component is "main"), and the descriptor display name. -/
theorem C7_unique_id_and_name (e : SmartThingsNumber) :
    (e._component = "main" →
      e.unique_id = e._device.device_id ++ "." ++ e._attribute ∧
      e.name = e._device.label ++ " " ++ e._name) ∧
    (e._component ≠ "main" →
      e.unique_id = e._device.device_id ++ "." ++ e._component ++ "." ++ e._attribute ∧
      e.name = e._device.label ++ " " ++ e._component ++ " " ++ e._name) := by
  constructor
  · intro h
    exact ⟨by simp [SmartThingsNumber.unique_id, h],
           by simp [SmartThingsNumber.name, h]⟩
  · intro h
    exact ⟨by simp [SmartThingsNumber.unique_id, h],
           by simp [SmartThingsNumber.name, h]⟩

/-- Witness for C7: a "main"-bound and a "cooler"-bound entity of device
"d0" labelled "Fridge" with attribute "coolingSetpoint" and display name
"Cooling Setpoint". -/
theorem C7_witness :
    (exEntity "main" none).unique_id = "d0.coolingSetpoint" ∧
    (exEntity "main" none).name = "Fridge Cooling Setpoint" ∧
    (exEntity "cooler" none).unique_id = "d0.cooler.coolingSetpoint" ∧
    (exEntity "cooler" none).name = "Fridge cooler Cooling Setpoint" :=
  ⟨(((C7_unique_id_and_name (exEntity "main" none)).1 rfl).1).trans (by decide),
   (((C7_unique_id_and_name (exEntity "main" none)).1 rfl).2).trans (by decide),
   (((C7_unique_id_and_name (exEntity "cooler" none)).2 (by decide)).1).trans
     (by decide),
   (((C7_unique_id_and_name (exEntity "cooler" none)).2 (by decide)).2).trans
     (by decide)⟩

/-- Claim C8: a failure of the remote command call propagates unchanged to
the caller — no retry, no translation — and the state-write signal is issued
exactly when the command call returns successfully. -/
theorem C8_failure_propagation {ε : Type} (e : SmartThingsNumber)
    (cmd : CommandCall → Except ε Unit) (v : Rat) :
    (∀ err, cmd (setpointCall e v) = Except.error err →
      async_set_native_value e cmd v =
        ([Event.command (setpointCall e v)], Except.error err) ∧
      Event.write_ha_state ∉ (async_set_native_value e cmd v).1) ∧
    (Event.write_ha_state ∈ (async_set_native_value e cmd v).1 ↔
      cmd (setpointCall e v) = Except.ok ()) := by
  constructor
  · intro err herr
    constructor
    · unfold async_set_native_value
      rw [herr]
    · unfold async_set_native_value
      rw [herr]
      simp
  · unfold async_set_native_value
    cases hc : cmd (setpointCall e v) with
    | error err => simp
    | ok u => simp

/-- Witness for C8: a dispatcher that raises "boom" makes
`async_set_native_value` return that very error with no state-write signal
in the trace. -/
theorem C8_witness :
    async_set_native_value (exEntity "main" none)
        (fun _ => (Except.error "boom" : Except String Unit)) 1 =
      ([Event.command { component := "main",
                        capability := "thermostatCoolingSetpoint",
                        command := "setCoolingSetpoint",
                        args := [1] }], Except.error "boom") ∧
    Event.write_ha_state ∉
      (async_set_native_value (exEntity "main" none)
        (fun _ => (Except.error "boom" : Except String Unit)) 1).1 := by
  have hsc : setpointCall (exEntity "main" none) 1 =
      { component := "main",
        capability := "thermostatCoolingSetpoint",
        command := "setCoolingSetpoint",
        args := [1] } := by
    simp [setpointCall, exEntity, mkNumber, unitDevice, int_trunc]
  have h := (C8_failure_propagation (exEntity "main" none)
    (fun _ => (Except.error "boom" : Except String Unit)) 1).1 "boom" rfl
  rw [hsc] at h
  exact ⟨h.1, h.2⟩

/-- Claim C9: `get_capabilities` always returns a list (never `None`), namely
the registry keys occurring in the input in registry-iteration order; the
result is a subset of the registry's keys and is empty exactly when no input
capability is a registry key. -/
theorem C9_get_capabilities_filter (capabilities : List String) :
    get_capabilities capabilities =
      some ((CAPABILITY_TO_NUMBER.map Prod.fst).filter
        (fun c => capabilities.contains c)) ∧
    (∀ c ∈ (CAPABILITY_TO_NUMBER.map Prod.fst).filter
        (fun c => capabilities.contains c),
      c ∈ CAPABILITY_TO_NUMBER.map Prod.fst) ∧
    ((CAPABILITY_TO_NUMBER.map Prod.fst).filter
        (fun c => capabilities.contains c) = [] ↔
      ∀ c ∈ CAPABILITY_TO_NUMBER.map Prod.fst, c ∉ capabilities) := by
  refine ⟨rfl, ?_, ?_⟩
  · intro c hc
    exact (List.mem_filter.mp hc).1
  · rw [List.filter_eq_nil_iff]
    constructor
    · intro h c hc hmem
      exact h c hc (by simpa using hmem)
    · intro h c hc hcontains
      exact h c hc (by simpa using hcontains)

/-- Witness for C9: on an input holding the registry key and a stranger, the
result is the singleton list of the key. -/
theorem C9_witness :
    get_capabilities ["other", "thermostatCoolingSetpoint"] =
      some ["thermostatCoolingSetpoint"] :=
  ((C9_get_capabilities_filter ["other", "thermostatCoolingSetpoint"]).1).trans
    (by decide)

/-- Claim C10: both bound getters read the bound attribute's unit from the
status cache before any component check, so when the (component, attribute)
entry is absent they fail with a lookup error (`none`) for every component,
instead of returning the descriptor's configured bounds. -/
theorem C10_missing_status_entry_fails (e : SmartThingsNumber)
    (h : statusEntry e = none) :
    e.native_min_value = none ∧ e.native_max_value = none := by
  constructor
  · simp [SmartThingsNumber.native_min_value, unitOf, h]
  · simp [SmartThingsNumber.native_max_value, unitOf, h]

/-- Witness for C10: a "main"-bound entity (a component that is neither
"cooler" nor "freezer") over an empty status cache: both getters fail
instead of falling back to the configured bounds. -/
theorem C10_witness :
    entNoStatus.native_min_value = none ∧ entNoStatus.native_max_value = none :=
  C10_missing_status_entry_fails entNoStatus rfl
